import Mathlib

/-
Verification development for the wake-word speech-to-text controller
(src/useSpeechRecognition hook, consumed by src/WakeWordSTT.tsx).

The controller is a three-state machine (idle / listening-for-wake /
transcribing) driven by session events (result batches, errors, session
end), two commands (start, stop) and a single-shot inactivity timer.

Modelling conventions:
- React state cells (state, transcripts, interimTranscript, error) and
  mutable refs (isListeningRef, restartAttemptsRef, inactivityTimerRef,
  the session's `continuous` flag) are fields of one `Controller` record;
  state updates are modelled as taking effect immediately between
  events. The one place the source reads a state cell through a closure
  captured before an update inside the same call — `start()` invoking
  `resetInactivityTimer`, whose `useCallback` over `[state]` still holds
  the pre-call render state — is modelled explicitly:
  `resetInactivityTimer` takes the state its closure captured.
- The inactivity timer is a single slot: `timerArmed` records whether a
  timeout callback is pending; arming overwrites the slot, so deadlines
  reset rather than stack, exactly as `resetInactivityTimer` first calls
  `clearTimeout` on any pending handle.
- The recognition engine is external: whether `recognition.start()` or
  `recognition.stop()` throws at a given call site is an input
  (`StartOutcome`, `stopRaises`, `startRaises`); the JS code catches
  these exceptions, so the model functions are total.
- JS string operations `toLowerCase`, `trim`, `includes` are embedded as
  `jsToLower`, `jsTrim`, `strIncludes` over the character list of the
  string.
- `TranscriptEntry.id` (Date.now) and `timestamp` (new Date) are opaque
  environment-supplied values irrelevant to every property below; the
  embedded entry keeps the `text` and `isFinal` fields.
-/

inductive TranscriptState where
  | idle
  | listeningForWake
  | transcribing
deriving DecidableEq, Repr

/-- One recognition result segment: `event.results[i][0].transcript`
together with `event.results[i].isFinal`. A result batch is the list of
segments from `event.resultIndex` to the end, in order. -/
structure Segment where
  text : String
  isFinal : Bool
deriving DecidableEq, Repr

/-- A transcript log entry (id and timestamp omitted; see header). -/
structure TranscriptEntry where
  text : String
  isFinal : Bool
deriving DecidableEq, Repr

/-- Hook configuration: the wake word and sleep word props, and whether
the environment provides a SpeechRecognition implementation (in which
case `recognitionRef.current` is populated by the init effect). -/
structure Config where
  wakeWord : String
  sleepWord : String
  isSupported : Bool
deriving DecidableEq, Repr

/-- The controller's mutable state: React state cells plus refs. -/
structure Controller where
  state : TranscriptState
  transcripts : List TranscriptEntry
  interimTranscript : String
  error : Option String
  isListening : Bool
  restartAttempts : Nat
  timerArmed : Bool
  continuous : Bool
deriving DecidableEq, Repr

/-- `maxRestartAttempts = 3` in the hook. -/
def maxRestartAttempts : Nat := 3

/-- Initial values of all state cells and refs. -/
def initController : Controller :=
  { state := TranscriptState.idle
    transcripts := []
    interimTranscript := ""
    error := none
    isListening := false
    restartAttempts := 0
    timerArmed := false
    continuous := false }

/-- JS `String.prototype.toLowerCase` (basic-latin letters). -/
def jsToLower (s : String) : String :=
  ⟨s.data.map Char.toLower⟩

/-- Strip whitespace from both ends of a character list. -/
def trimChars (l : List Char) : List Char :=
  ((l.dropWhile Char.isWhitespace).reverse.dropWhile Char.isWhitespace).reverse

/-- JS `String.prototype.trim`. -/
def jsTrim (s : String) : String :=
  ⟨trimChars s.data⟩

/-- `text.toLowerCase().trim()`, the normalisation both word checks use. -/
def normalizeText (s : String) : String :=
  jsTrim (jsToLower s)

/-- Does `pat` match at the head of `s`? -/
def matchesAt : List Char → List Char → Bool
  | [], _ => true
  | _ :: _, [] => false
  | p :: ps, s :: ss => p = s && matchesAt ps ss

/-- Does `s` contain `pat` as a contiguous subsequence? -/
def containsSeq (s pat : List Char) : Bool :=
  match s with
  | [] => matchesAt pat []
  | _ :: rest => matchesAt pat s || containsSeq rest pat

/-- JS `s.includes(pat)`. -/
def strIncludes (s pat : String) : Bool :=
  containsSeq s.data pat.data

/-- The wake-word test inside `checkForWakeWord`:
`normalizedText.includes(normalizedWakeWord)`. -/
def wakeMatches (cfg : Config) (text : String) : Bool :=
  strIncludes (normalizeText text) (normalizeText cfg.wakeWord)

/-- The sleep-word test inside `checkForSleepWord`. -/
def sleepMatches (cfg : Config) (text : String) : Bool :=
  strIncludes (normalizeText text) (normalizeText cfg.sleepWord)

/-- `checkForWakeWord`: on a match, `updateState('transcribing')` and
reset of the restart-attempt counter; the boolean result is
`wakeMatches`. -/
def checkForWakeWord (cfg : Config) (c : Controller) (text : String) : Controller :=
  if wakeMatches cfg text then
    { c with state := TranscriptState.transcribing, restartAttempts := 0 }
  else c

/-- `checkForSleepWord`: on a match, `updateState('listening-for-wake')`. -/
def checkForSleepWord (cfg : Config) (c : Controller) (text : String) : Controller :=
  if sleepMatches cfg text then
    { c with state := TranscriptState.listeningForWake }
  else c

/-- `addTranscript(text, isFinal)`: blank text is ignored; final text is
appended (trimmed) to the log and clears the interim slot; non-final
text overwrites the interim slot (untrimmed). -/
def addTranscript (c : Controller) (text : String) (isFinal : Bool) : Controller :=
  if jsTrim text = "" then c
  else if isFinal then
    { c with
        transcripts := c.transcripts ++ [{ text := jsTrim text, isFinal := isFinal }]
        interimTranscript := "" }
  else
    { c with interimTranscript := text }

/-- `resetInactivityTimer`: clear any pending timer, then arm a fresh
120s timer only when the state is listening-for-wake. The function is a
`useCallback` over `[state]`, so the state it tests is the render state
its closure captured, passed here as `stateRead`: in `onresult` that is
the state on event arrival; in `start()` it is the pre-call state,
because the `updateState` call inside `start()` cannot rebind the
already-captured closure variable. The timer slot itself is a ref and
is never stale. -/
def resetInactivityTimer (stateRead : TranscriptState) (c : Controller) : Controller :=
  if stateRead = TranscriptState.listeningForWake then
    { c with timerArmed := true }
  else
    { c with timerArmed := false }

/-- `finalText`: concatenation of the final segments of the batch. -/
def finalTextOf (batch : List Segment) : String :=
  batch.foldl (fun acc seg => if seg.isFinal then acc ++ seg.text else acc) ""

/-- `interimText`: concatenation of the non-final segments. -/
def interimTextOf (batch : List Segment) : String :=
  batch.foldl (fun acc seg => if seg.isFinal then acc else acc ++ seg.text) ""

/-- `finalText || interimText`: the text scanned for the wake word. -/
def textToCheck (batch : List Segment) : String :=
  if finalTextOf batch = "" then interimTextOf batch else finalTextOf batch

/-- `recognition.onresult`: reset the inactivity timer, then dispatch on
the current state; a wake match flips the session to continuous mode and
returns, a sleep match (only on non-empty final text) flips it back and
returns, otherwise final text is logged, else interim text is shown. -/
def onResult (cfg : Config) (c0 : Controller) (batch : List Segment) : Controller :=
  let finalText := finalTextOf batch
  let interimText := interimTextOf batch
  let c := resetInactivityTimer c0.state c0
  if c.state = TranscriptState.listeningForWake then
    let t := if finalText = "" then interimText else finalText
    if wakeMatches cfg t then
      { checkForWakeWord cfg c t with continuous := true }
    else
      checkForWakeWord cfg c t
  else if c.state = TranscriptState.transcribing then
    if finalText ≠ "" then
      if sleepMatches cfg finalText then
        { checkForSleepWord cfg c finalText with continuous := false }
      else
        addTranscript c finalText true
    else if interimText ≠ "" then
      addTranscript c interimText false
    else c
  else c

/-- `recognition.onerror`: `no-speech` is ignored; every code other than
`aborted` sets the error message; the state is never touched. -/
def onError (c : Controller) (code : String) : Controller :=
  if code = "no-speech" then c
  else if code ≠ "aborted" then
    { c with error := some ("Recognition error: " ++ code) }
  else c

/-- `recognition.onend` with `startRaises` recording whether the
`recognition.start()` inside the try block throws: if the controller is
logically listening and the counter is below the ceiling, the counter is
incremented and a restart is attempted; only when that restart throws
with the counter at the ceiling is the fatal error set and the state
forced to idle. -/
def onEnd (c : Controller) (startRaises : Bool) : Controller :=
  if c.isListening = true ∧ c.restartAttempts < maxRestartAttempts then
    let c1 := { c with restartAttempts := c.restartAttempts + 1 }
    if startRaises then
      if maxRestartAttempts ≤ c1.restartAttempts then
        { c1 with
            error := some "Speech recognition stopped. Please restart manually."
            isListening := false
            state := TranscriptState.idle }
      else c1
    else c1
  else c

/-- Outcome of the `recognitionRef.current.start()` call inside
`start()`: it returns normally, throws with a message containing
`already started` (or an exception with no message), or throws with some
other message `msg`. -/
inductive StartOutcome where
  | ok
  | alreadyStarted
  | failed (msg : String)
deriving DecidableEq, Repr

/-- `start()`: unsupported environments only set an error. Otherwise the
error is cleared, listening intent and single-utterance mode are set,
the counter is reset and the state becomes listening-for-wake before the
engine `start()` is called; if that call throws, the trailing
`resetInactivityTimer()` is skipped and an `already started` message is
swallowed while any other message is surfaced. The
`resetInactivityTimer` instance that `start()` invokes captured the
pre-call render state, so on a normal start from idle it clears the
timer slot and does not arm it. -/
def start (cfg : Config) (c : Controller) (outcome : StartOutcome) : Controller :=
  if cfg.isSupported = false then
    { c with error := some "Speech recognition is not supported in this browser" }
  else
    let c1 := { c with
                  error := none
                  isListening := true
                  restartAttempts := 0
                  continuous := false
                  state := TranscriptState.listeningForWake }
    match outcome with
    | StartOutcome.ok => resetInactivityTimer c.state c1
    | StartOutcome.alreadyStarted => c1
    | StartOutcome.failed msg =>
        { c1 with error := some ("Failed to start recognition: " ++ msg) }

/-- `stop()` with `stopRaises` recording whether
`recognitionRef.current.stop()` throws: listening intent, counter and
timer are cleared before the engine call; the transition to idle and the
clearing of the interim slot come after it and are skipped when it
throws; the catch block swallows the exception. Without a recognition
object (`!recognitionRef.current`) the function returns at once. -/
def stop (cfg : Config) (c : Controller) (stopRaises : Bool) : Controller :=
  if cfg.isSupported = false then c
  else
    let c1 := { c with isListening := false, restartAttempts := 0, timerArmed := false }
    if stopRaises then c1
    else { c1 with state := TranscriptState.idle, interimTranscript := "" }

/-- The inactivity timer firing: the scheduled callback just calls
`stop()`; it can only fire while its slot is armed. -/
def inactivityTimeout (cfg : Config) (c : Controller) (stopRaises : Bool) : Controller :=
  if c.timerArmed then stop cfg c stopRaises else c

/-- `clearTranscripts()`. -/
def clearTranscripts (c : Controller) : Controller :=
  { c with transcripts := [], interimTranscript := "" }

/-- One external stimulus delivered to the controller. -/
inductive Event where
  | evStart (outcome : StartOutcome)
  | evStop (stopRaises : Bool)
  | evResult (batch : List Segment)
  | evError (code : String)
  | evEnd (startRaises : Bool)
  | evTimeout (stopRaises : Bool)
  | evClear
deriving Repr

/-- Dispatch one event. -/
def step (cfg : Config) (c : Controller) : Event → Controller
  | Event.evStart outcome => start cfg c outcome
  | Event.evStop r => stop cfg c r
  | Event.evResult batch => onResult cfg c batch
  | Event.evError code => onError c code
  | Event.evEnd r => onEnd c r
  | Event.evTimeout r => inactivityTimeout cfg c r
  | Event.evClear => clearTranscripts c

/-- Run a sequence of events. -/
def run (cfg : Config) (c : Controller) (events : List Event) : Controller :=
  events.foldl (step cfg) c

/-- The component's default configuration: wake word `hi`, sleep word
`bye`, in a supporting browser. -/
def cfgHi : Config :=
  { wakeWord := "hi", sleepWord := "bye", isSupported := true }

/-- A reachable listening controller: the result of a successful `start()`. -/
def listenC : Controller :=
  run cfgHi initController [Event.evStart StartOutcome.ok]

/-- A reachable transcribing controller: `start()` followed by an interim
batch containing the wake word. -/
def transC : Controller :=
  run cfgHi initController
    [Event.evStart StartOutcome.ok,
     Event.evResult [{ text := "hi", isFinal := false }]]

example :
    (run cfgHi initController
      [Event.evStart StartOutcome.ok,
       Event.evResult [{ text := "hi there", isFinal := true }]]).state =
      TranscriptState.transcribing := by decide

example :
    (run cfgHi initController
      [Event.evStart StartOutcome.ok,
       Event.evResult [{ text := "hi there", isFinal := true }],
       Event.evResult [{ text := "hello world", isFinal := true }]]).transcripts =
      [{ text := "hello world", isFinal := true }] := by decide

theorem addTranscript_state (c : Controller) (t : String) (b : Bool) :
    (addTranscript c t b).state = c.state := by
  unfold addTranscript
  split_ifs <;> rfl

theorem addTranscript_timer (c : Controller) (t : String) (b : Bool) :
    (addTranscript c t b).timerArmed = c.timerArmed := by
  unfold addTranscript
  split_ifs <;> rfl

theorem resetInactivityTimer_eq (s : TranscriptState) (c : Controller) :
    resetInactivityTimer s c =
      { c with timerArmed := decide (s = TranscriptState.listeningForWake) } := by
  unfold resetInactivityTimer
  split_ifs with h <;> simp [h]

/-- C2: while listening for the wake word, a result batch moves the
controller to transcribing exactly when the scanned text (the batch's
concatenated final text, or its concatenated interim text when the final
text is empty), lower-cased and trimmed, contains the lower-cased and
trimmed wake word as a substring; otherwise the state stays
listening-for-wake. -/
theorem wake_word_substring_transition (cfg : Config) (c : Controller)
    (batch : List Segment) (h : c.state = TranscriptState.listeningForWake) :
    (onResult cfg c batch).state =
      (if wakeMatches cfg (textToCheck batch) = true then TranscriptState.transcribing
       else TranscriptState.listeningForWake) := by
  unfold onResult textToCheck checkForWakeWord
  simp only [resetInactivityTimer_eq]
  split_ifs <;> simp_all

/-- C2, witness. -/
theorem wake_word_substring_transition_witness :
    listenC.state = TranscriptState.listeningForWake ∧
    (onResult cfgHi listenC [{ text := "hi there", isFinal := true }]).state =
      (if wakeMatches cfgHi (textToCheck [{ text := "hi there", isFinal := true }]) = true
       then TranscriptState.transcribing
       else TranscriptState.listeningForWake) :=
  ⟨by decide,
   wake_word_substring_transition cfgHi listenC
     [{ text := "hi there", isFinal := true }] (by decide)⟩

/-- C3: while transcribing, the transition back to listening-for-wake
happens exactly when the batch's concatenated final text is non-empty
and contains the sleep word by the substring rule; a batch whose only
sleep-word occurrence is interim never triggers it. -/
theorem sleep_word_final_only (cfg : Config) (c : Controller)
    (batch : List Segment) (h : c.state = TranscriptState.transcribing) :
    ((onResult cfg c batch).state = TranscriptState.listeningForWake ↔
      (finalTextOf batch ≠ "" ∧ sleepMatches cfg (finalTextOf batch) = true)) := by
  unfold onResult checkForSleepWord
  simp only [resetInactivityTimer_eq]
  split_ifs <;> simp_all [addTranscript_state]

/-- C3, witness. -/
theorem sleep_word_final_only_witness :
    transC.state = TranscriptState.transcribing ∧
    ((onResult cfgHi transC [{ text := "ok bye now", isFinal := true }]).state =
        TranscriptState.listeningForWake ↔
      (finalTextOf [{ text := "ok bye now", isFinal := true }] ≠ "" ∧
        sleepMatches cfgHi (finalTextOf [{ text := "ok bye now", isFinal := true }]) = true)) :=
  ⟨by decide,
   sleep_word_final_only cfgHi transC
     [{ text := "ok bye now", isFinal := true }] (by decide)⟩

/-- C9: a result batch whose dispatch changes the controller state (a
wake- or sleep-word match) never appends anything to the transcript
log: the triggering text is consumed by the state machine. -/
theorem trigger_batch_never_logged (cfg : Config) (c : Controller)
    (batch : List Segment) (h : (onResult cfg c batch).state ≠ c.state) :
    (onResult cfg c batch).transcripts = c.transcripts := by
  revert h
  unfold onResult checkForWakeWord checkForSleepWord
  simp only [resetInactivityTimer_eq]
  split_ifs <;> intro h <;> simp_all [addTranscript_state]

/-- C7: session error events: `no-speech` and `aborted` leave both the
error field and the state unchanged; any other code sets the error field
to a user-visible message derived from the code without touching the
state; a successful `start()` leaves the error field cleared. -/
theorem error_event_policy (c : Controller) (code : String) :
    ((code = "no-speech" ∨ code = "aborted") → onError c code = c) ∧
    (code ≠ "no-speech" → code ≠ "aborted" →
      onError c code = { c with error := some ("Recognition error: " ++ code) }) ∧
    (onError c code).state = c.state ∧
    (∀ cfg : Config, cfg.isSupported = true →
      (start cfg c StartOutcome.ok).error = none) := by
  refine ⟨?_, ?_, ?_, ?_⟩
  · intro h
    unfold onError
    rcases h with h | h <;> simp [h]
  · intro h1 h2
    unfold onError
    simp [h1, h2]
  · unfold onError
    split_ifs <;> rfl
  · intro cfg hs
    unfold start
    simp only [resetInactivityTimer_eq, hs]
    simp

/-- C7, witness. -/
theorem error_event_policy_witness :
    onError transC ("network") =
      { transC with error := some ("Recognition error: " ++ "network") } ∧
    (start cfgHi transC StartOutcome.ok).error = none :=
  ⟨(error_event_policy transC ("network")).2.1 (by decide) (by decide),
   (error_event_policy transC ("network")).2.2.2 cfgHi (by decide)⟩

theorem toLower_whitespace (ch : Char) (h : ch.isWhitespace = true) :
    Char.toLower ch = ch := by
  simp only [Char.isWhitespace, Bool.or_eq_true, decide_eq_true_eq] at h
  rcases h with ((h | h) | h) | h
  all_goals subst h
  all_goals decide

theorem trimChars_nil (l : List Char) (h : ∀ ch ∈ l, ch.isWhitespace = true) :
    trimChars l = [] := by
  unfold trimChars
  have h1 : l.dropWhile Char.isWhitespace = [] := by
    rw [List.dropWhile_eq_nil_iff]
    exact fun x hx => h x hx
  rw [h1]
  rfl

theorem normalizeText_blank (s : String) (h : ∀ ch ∈ s.data, ch.isWhitespace = true) :
    normalizeText s = "" := by
  have h2 : ∀ ch ∈ s.data.map Char.toLower, ch.isWhitespace = true := by
    intro ch hch
    rcases List.mem_map.mp hch with ⟨x, hx, rfl⟩
    rw [toLower_whitespace x (h x hx)]
    exact h x hx
  unfold normalizeText jsTrim jsToLower
  rw [show (String.mk (s.data.map Char.toLower)).data = s.data.map Char.toLower from rfl]
  rw [trimChars_nil _ h2]

theorem containsSeq_nil (s : List Char) : containsSeq s [] = true := by
  cases s <;> simp [containsSeq, matchesAt]

theorem strIncludes_empty (s : String) : strIncludes s "" = true := by
  unfold strIncludes
  rw [show ("" : String).data = [] from rfl]
  exact containsSeq_nil s.data

/-- C10: when the configured wake word is empty or whitespace-only, its
normalisation is the empty string, which is a substring of every text,
so in listening-for-wake every result batch — even an empty one —
triggers the transition to transcribing. -/
theorem blank_wake_word_always_matches (cfg : Config) (c : Controller)
    (batch : List Segment)
    (hw : ∀ ch ∈ cfg.wakeWord.data, ch.isWhitespace = true)
    (h : c.state = TranscriptState.listeningForWake) :
    (onResult cfg c batch).state = TranscriptState.transcribing := by
  have hm : wakeMatches cfg (textToCheck batch) = true := by
    unfold wakeMatches
    rw [normalizeText_blank cfg.wakeWord hw]
    exact strIncludes_empty _
  unfold textToCheck at hm
  unfold onResult checkForWakeWord
  simp only [resetInactivityTimer_eq]
  simp_all

/-- The configuration with a whitespace-only wake word used to witness
the blank-wake-word behaviour. -/
def cfgBlank : Config :=
  { wakeWord := " ", sleepWord := "bye", isSupported := true }

/-- C10, witness. -/
theorem blank_wake_word_always_matches_witness :
    (∀ ch ∈ cfgBlank.wakeWord.data, ch.isWhitespace = true) ∧
    ({ initController with state := TranscriptState.listeningForWake } : Controller).state =
      TranscriptState.listeningForWake ∧
    (onResult cfgBlank { initController with state := TranscriptState.listeningForWake } []).state =
      TranscriptState.transcribing :=
  ⟨by decide, rfl,
   blank_wake_word_always_matches cfgBlank
     { initController with state := TranscriptState.listeningForWake } [] (by decide) rfl⟩

/-- C9, witness. -/
theorem trigger_batch_never_logged_witness :
    (onResult cfgHi listenC [{ text := "hi there", isFinal := true }]).state ≠
      listenC.state ∧
    (onResult cfgHi listenC [{ text := "hi there", isFinal := true }]).transcripts =
      listenC.transcripts :=
  ⟨by decide,
   trigger_batch_never_logged cfgHi listenC
     [{ text := "hi there", isFinal := true }] (by decide)⟩

/-- C1, counterexample: four consecutive `onEnd` events whose restart
calls all succeed leave the state unchanged (not idle) and set no
error — the fourth `onEnd` is skipped entirely by the
`restartAttempts < maxRestartAttempts` guard. -/
theorem restart_ceiling_counterexample :
    (run cfgHi initController
       [Event.evStart StartOutcome.ok, Event.evEnd false, Event.evEnd false,
        Event.evEnd false, Event.evEnd false]).state ≠ TranscriptState.idle ∧
    (run cfgHi initController
       [Event.evStart StartOutcome.ok, Event.evEnd false, Event.evEnd false,
        Event.evEnd false, Event.evEnd false]).error = none := by decide

/-- C1, amended: with listening intent and the counter at 0, four
consecutive `onEnd` events whose restarts succeed leave the state and
the error field unchanged, merely driving the counter to the ceiling;
after three such events the state is likewise unchanged; the fatal
`recognition stopped` error and the forced transition to idle happen
only when the engine restart call itself throws with the counter at the
ceiling — that is, already on the third consecutive `onEnd` whose
restart throws. -/
theorem restart_ceiling_amended (c : Controller)
    (hL : c.isListening = true) (h0 : c.restartAttempts = 0) :
    ((onEnd (onEnd (onEnd (onEnd c false) false) false) false).state = c.state ∧
      (onEnd (onEnd (onEnd (onEnd c false) false) false) false).error = c.error ∧
      (onEnd (onEnd (onEnd (onEnd c false) false) false) false).restartAttempts =
        maxRestartAttempts) ∧
    ((onEnd (onEnd (onEnd c false) false) false).state = c.state) ∧
    ((onEnd (onEnd (onEnd c true) true) true).state = TranscriptState.idle ∧
      (onEnd (onEnd (onEnd c true) true) true).error =
        some ("Speech recognition stopped. Please restart manually.")) := by
  simp [onEnd, maxRestartAttempts, hL, h0]

/-- C1, witness. -/
theorem restart_ceiling_amended_witness :
    (onEnd (onEnd (onEnd (onEnd listenC false) false) false) false).state =
      listenC.state ∧
    (onEnd (onEnd (onEnd listenC true) true) true).state = TranscriptState.idle :=
  ⟨((restart_ceiling_amended listenC (by decide) (by decide)).1).1,
   ((restart_ceiling_amended listenC (by decide) (by decide)).2.2).1⟩

/-- C4, counterexample: when the underlying session's `stop()` raises,
the transition to idle is skipped, so a `stop()` issued while
transcribing leaves the controller in transcribing. -/
theorem stop_unconditional_counterexample :
    (run cfgHi initController
       [Event.evStart StartOutcome.ok,
        Event.evResult [{ text := "hi", isFinal := false }],
        Event.evStop true]).state ≠ TranscriptState.idle := by decide

/-- C4, amended: `stop()` never surfaces an exception and always clears
the listening intent, the restart counter and the inactivity timer;
only when the session's `stop()` does not raise does it also force the
state to idle and clear the interim text — when it raises, state and
interim text are left as they were. The transcript list and the error
field are never touched, and a `stop()` issued while already idle with
empty interim text changes none of the observable fields. -/
theorem stop_behavior_amended (cfg : Config) (c : Controller)
    (hs : cfg.isSupported = true) :
    (stop cfg c false =
      { c with isListening := false, restartAttempts := 0, timerArmed := false,
               state := TranscriptState.idle, interimTranscript := "" }) ∧
    (stop cfg c true =
      { c with isListening := false, restartAttempts := 0, timerArmed := false }) ∧
    ((stop cfg c true).state = c.state ∧
      (stop cfg c true).interimTranscript = c.interimTranscript) ∧
    ((stop cfg c false).error = c.error ∧
      (stop cfg c false).transcripts = c.transcripts) ∧
    (c.state = TranscriptState.idle → c.interimTranscript = "" →
      ((stop cfg c false).state = c.state ∧
        (stop cfg c false).transcripts = c.transcripts ∧
        (stop cfg c false).interimTranscript = c.interimTranscript ∧
        (stop cfg c false).error = c.error)) := by
  refine ⟨by simp [stop, hs], by simp [stop, hs], by simp [stop, hs],
    by simp [stop, hs], ?_⟩
  intro h1 h2
  simp [stop, hs, h1, h2]

/-- C4, witness. -/
theorem stop_behavior_amended_witness :
    stop cfgHi transC true =
      { transC with isListening := false, restartAttempts := 0, timerArmed := false } :=
  (stop_behavior_amended cfgHi transC rfl).2.1

/-- C5, counterexample: the reachable controller obtained by `start()`
followed by a wake-word batch is transcribing with the inactivity timer
still armed — the wake transition does not cancel the deadline that the
same batch just re-armed. -/
theorem inactivity_deadline_counterexample :
    transC.state = TranscriptState.transcribing ∧ transC.timerArmed = true := by
  decide

/-- C5, amended: the timer is a single slot, so re-arming replaces any
pending deadline (deadlines reset, never stack). A result batch leaves
the timer armed exactly when the state on its arrival was
listening-for-wake (re-armed there, cancelled in any other state);
`stop()` cancels it whether or not the session call raises; a firing
deadline forces idle as by `stop()`. But the deadline's lifecycle is
not tied to listening-for-wake as claimed: `start()` does not arm the
timer — the `resetInactivityTimer` closure it invokes reads the
pre-call render state, normally idle, so after a normal `start()` no
deadline exists (and none can fire) until the first batch arrives in
listening-for-wake; conversely a batch that triggers the wake
transition first re-arms the timer and the transition does not cancel
it, so a pending deadline persists into transcribing until the next
batch. -/
theorem inactivity_deadline_amended (cfg : Config) (c : Controller)
    (batch : List Segment) (hs : cfg.isSupported = true) :
    ((onResult cfg c batch).timerArmed =
      decide (c.state = TranscriptState.listeningForWake)) ∧
    (c.timerArmed = true →
      (inactivityTimeout cfg c false).state = TranscriptState.idle) ∧
    ((stop cfg c true).timerArmed = false ∧ (stop cfg c false).timerArmed = false) ∧
    ((start cfg c StartOutcome.ok).timerArmed =
      decide (c.state = TranscriptState.listeningForWake)) ∧
    (c.state = TranscriptState.idle →
      (start cfg c StartOutcome.ok).timerArmed = false) ∧
    (c.state = TranscriptState.listeningForWake →
      wakeMatches cfg (textToCheck batch) = true →
      ((onResult cfg c batch).state = TranscriptState.transcribing ∧
        (onResult cfg c batch).timerArmed = true)) := by
  refine ⟨?_, ?_, by simp [stop, hs], ?_, ?_, ?_⟩
  · unfold onResult checkForWakeWord checkForSleepWord
    simp only [resetInactivityTimer_eq]
    split_ifs <;> simp_all [addTranscript_timer]
  · intro h
    simp [inactivityTimeout, h, stop, hs]
  · simp [start, hs, resetInactivityTimer_eq]
  · intro h
    simp [start, hs, resetInactivityTimer_eq, h]
  · intro h hm
    unfold textToCheck at hm
    unfold onResult checkForWakeWord
    simp only [resetInactivityTimer_eq]
    simp_all

/-- C5, witness. -/
theorem inactivity_deadline_amended_witness :
    (onResult cfgHi transC []).timerArmed =
      decide (transC.state = TranscriptState.listeningForWake) ∧
    (inactivityTimeout cfgHi transC false).state = TranscriptState.idle ∧
    (start cfgHi initController StartOutcome.ok).timerArmed = false :=
  ⟨(inactivity_deadline_amended cfgHi transC [] rfl).1,
   (inactivity_deadline_amended cfgHi transC [] rfl).2.1 (by decide),
   (inactivity_deadline_amended cfgHi initController [] rfl).2.2.2.2.1 rfl⟩

/-- C6, counterexample: a `start()` issued while transcribing (the
engine throwing the benign `already started` exception) is not a no-op:
the state is forced back to listening-for-wake. -/
theorem start_idempotent_counterexample :
    transC.state = TranscriptState.transcribing ∧
    (start cfgHi transC StartOutcome.alreadyStarted).state ≠ transC.state := by
  decide

/-- C6, amended: `start()` while a session is already active surfaces no
error (the `already started` exception is swallowed and the error field
ends up cleared) and leaves the transcript list, interim text and timer
slot unchanged, but it is not a no-op: it resets the state to
listening-for-wake — changing it when issued while transcribing —
besides clearing the error field, resetting the restart counter and
setting single-utterance mode; only when the state is already
listening-for-wake is it unchanged. -/
theorem start_already_running_amended (cfg : Config) (c : Controller)
    (hs : cfg.isSupported = true) :
    (start cfg c StartOutcome.alreadyStarted =
      { c with error := none, isListening := true, restartAttempts := 0,
               continuous := false, state := TranscriptState.listeningForWake }) ∧
    ((start cfg c StartOutcome.alreadyStarted).transcripts = c.transcripts ∧
      (start cfg c StartOutcome.alreadyStarted).interimTranscript =
        c.interimTranscript ∧
      (start cfg c StartOutcome.alreadyStarted).error = none ∧
      (start cfg c StartOutcome.alreadyStarted).timerArmed = c.timerArmed) ∧
    (c.state = TranscriptState.listeningForWake →
      (start cfg c StartOutcome.alreadyStarted).state = c.state) := by
  refine ⟨by simp [start, hs], by simp [start, hs], ?_⟩
  intro h
  simp [start, hs, h]

/-- C6, witness. -/
theorem start_already_running_amended_witness :
    (start cfgHi transC StartOutcome.alreadyStarted).transcripts =
      transC.transcripts ∧
    (start cfgHi transC StartOutcome.alreadyStarted).error = none :=
  ⟨(start_already_running_amended cfgHi transC rfl).2.1.1,
   (start_already_running_amended cfgHi transC rfl).2.1.2.2.1⟩

/-- C8, counterexample: an interim batch while transcribing followed by
a sleep-word batch leaves the stale interim text in place after the
transition, so the interim slot is non-empty while the state is
listening-for-wake. -/
theorem interim_text_counterexample :
    (run cfgHi initController
       [Event.evStart StartOutcome.ok,
        Event.evResult [{ text := "hi", isFinal := false }],
        Event.evResult [{ text := "hello", isFinal := false }],
        Event.evResult [{ text := "bye", isFinal := true }]]).state =
      TranscriptState.listeningForWake ∧
    (run cfgHi initController
       [Event.evStart StartOutcome.ok,
        Event.evResult [{ text := "hi", isFinal := false }],
        Event.evResult [{ text := "hello", isFinal := false }],
        Event.evResult [{ text := "bye", isFinal := true }]]).interimTranscript =
      "hello" := by
  decide

/-- C8, amended: while transcribing, each batch carrying only non-blank
interim text overwrites the interim slot, and non-blank final text that
is logged clears it; `stop()` clears it when the session call does not
raise. But state transitions do not clear it: the sleep-word transition
and any batch processed in listening-for-wake (including the wake
transition) leave the interim slot untouched, so stale interim text can
survive into listening-for-wake. -/
theorem interim_text_amended (cfg : Config) (c : Controller)
    (batch : List Segment) (hs : cfg.isSupported = true) :
    (c.state = TranscriptState.transcribing → finalTextOf batch = "" →
      jsTrim (interimTextOf batch) ≠ "" →
      (onResult cfg c batch).interimTranscript = interimTextOf batch) ∧
    (c.state = TranscriptState.transcribing → finalTextOf batch ≠ "" →
      sleepMatches cfg (finalTextOf batch) = false →
      jsTrim (finalTextOf batch) ≠ "" →
      (onResult cfg c batch).interimTranscript = "") ∧
    ((stop cfg c false).interimTranscript = "") ∧
    (c.state = TranscriptState.transcribing → finalTextOf batch ≠ "" →
      sleepMatches cfg (finalTextOf batch) = true →
      (onResult cfg c batch).interimTranscript = c.interimTranscript) ∧
    (c.state = TranscriptState.listeningForWake →
      (onResult cfg c batch).interimTranscript = c.interimTranscript) := by
  refine ⟨?_, ?_, by simp [stop, hs], ?_, ?_⟩
  · intro h1 h2 h3
    have h4 : interimTextOf batch ≠ "" := by
      intro heq
      rw [heq] at h3
      exact h3 rfl
    unfold onResult addTranscript
    simp only [resetInactivityTimer_eq]
    simp_all
  · intro h1 h2 h3 h4
    unfold onResult addTranscript checkForSleepWord
    simp only [resetInactivityTimer_eq]
    simp_all
  · intro h1 h2 h3
    unfold onResult checkForSleepWord
    simp only [resetInactivityTimer_eq]
    simp_all
  · intro h
    unfold onResult checkForWakeWord
    simp only [resetInactivityTimer_eq]
    split_ifs <;> simp_all

/-- C8, witness. -/
theorem interim_text_amended_witness :
    (stop cfgHi transC false).interimTranscript = "" ∧
    (onResult cfgHi transC [{ text := "bye", isFinal := true }]).interimTranscript =
      transC.interimTranscript :=
  ⟨(interim_text_amended cfgHi transC [{ text := "bye", isFinal := true }] rfl).2.2.1,
   (interim_text_amended cfgHi transC [{ text := "bye", isFinal := true }] rfl).2.2.2.1
     (by decide) (by decide) (by decide)⟩
